import Mathlib

/-!
Verification of the forecast retrieval-and-aggregation engine of the
adcleek-weather repository, embedded from `src/api/src/routes/api.routes.ts`
(the `GET /weather/:insee` handler of `createAPIRoutes`) together with the
persistence schema of `InitDb.createTables` (composite primary key
`(insee, date)` on the `forecast` table, realised by `INSERT OR REPLACE`).

Modelling conventions:
- JavaScript numbers are modelled as `ℚ` (the handler only adds, averages
  and divides provider values; all concrete values in the spec are exact).
- An optionally-present raw provider field is `Option ℚ`; JavaScript's
  `a || b` on numbers picks `a` unless `a` is falsy (absent/`undefined`,
  `0`, or `NaN`), which `jsOr` reproduces.  `undefined + x` is `NaN` and
  `NaN` is falsy, so the average `(tmin + tmax) / 2` with a missing operand
  is modelled as `none`.
- ISO date strings (`"YYYY-MM-DD"`, the result of `datetime.split('T')[0]`)
  compare lexicographically exactly as they compare chronologically, both in
  JavaScript and under SQLite's TEXT ordering, so calendar dates are
  modelled as `ℕ` and the provider timestamp as a date/time-of-day pair.
- The SQL store is a list of rows; `SELECT ... ORDER BY date LIMIT 4` is
  filter, sort by date, take 4; `INSERT OR REPLACE` deletes any row with
  the same `(insee, date)` key and appends the new row.
- The JSON details blob (`JSON.stringify` of a record of ten finite
  numbers, later `JSON.parse`d back) round-trips exactly, so it is
  modelled as the record itself.
-/

namespace Weather

/-- JavaScript `a || b` where `a` is a possibly-absent number: `b` is used
when `a` is absent (`undefined`) or `0` (both falsy); otherwise `a`. -/
def jsOr (a : Option ℚ) (b : ℚ) : ℚ :=
  match a with
  | none => b
  | some x => if x = 0 then b else x

/-- JavaScript `(a + b) / 2` on possibly-absent numbers: a missing operand
makes the sum `NaN` (falsy, modelled `none`); otherwise the exact average. -/
def jsAvg (a b : Option ℚ) : Option ℚ :=
  match a, b with
  | some x, some y => some ((x + y) / 2)
  | _, _ => none

/-- Provider timestamp: `datetime.split('T')[0]` keeps the date part, so the
timestamp is a calendar date plus a time-of-day remainder. -/
structure Timestamp where
  day : ℕ
  timeOfDay : ℕ
deriving DecidableEq

/-- A raw provider day record: loosely typed, every numeric field optional,
with the field spellings used by the handler's fallback chains. -/
structure RawDay where
  datetime : Timestamp
  temp2m : Option ℚ := none
  tmin : Option ℚ := none
  tmax : Option ℚ := none
  probarain : Option ℚ := none
  probrain : Option ℚ := none
  rh2m : Option ℚ := none
  humidity : Option ℚ := none
  pmer : Option ℚ := none
  pressure : Option ℚ := none
  wind10m : Option ℚ := none
  wind_speed : Option ℚ := none
  gust10m : Option ℚ := none
  wind_gust : Option ℚ := none
  dirwind10m : Option ℚ := none
  wind_direction : Option ℚ := none
  weather : Option ℚ := none
  weather_code : Option ℚ := none
deriving DecidableEq

/-- The date extracted from a raw record: `forecast.datetime.split('T')[0]`. -/
def dateOf (f : RawDay) : ℕ := f.datetime.day

/-- One normalized day of the weather response (`WeatherDaySchema` of the
shared package): every numeric field present. -/
structure DailyForecast where
  date : ℕ
  temperature : ℚ
  humidity : ℚ
  pressure : ℚ
  wind_speed : ℚ
  wind_gust : ℚ
  wind_direction : ℚ
  weather_code : ℚ
  rain_probability : ℚ
  tmin : ℚ
  tmax : ℚ
deriving DecidableEq

/-- The response-side normalizer, `forecasts.map(f => ...)` of
`api.routes.ts` lines 110-127: each field is a `||`-fallback chain ending
in `0`; `tmin`/`tmax` fall back to the computed temperature. -/
def normalize (f : RawDay) : DailyForecast :=
  let temperature := jsOr f.temp2m (jsOr (jsAvg f.tmin f.tmax) 0)
  let rainProbability := jsOr f.probarain (jsOr f.probrain 0)
  { date := dateOf f
    temperature := temperature
    humidity := jsOr f.rh2m (jsOr f.humidity 0)
    pressure := jsOr f.pmer (jsOr f.pressure 0)
    wind_speed := jsOr f.wind10m (jsOr f.wind_speed 0)
    wind_gust := jsOr f.gust10m (jsOr f.wind_gust 0)
    wind_direction := jsOr f.dirwind10m (jsOr f.wind_direction 0)
    weather_code := jsOr f.weather (jsOr f.weather_code 0)
    rain_probability := rainProbability
    tmin := jsOr f.tmin temperature
    tmax := jsOr f.tmax temperature }

/-- The decoded content of the JSON `details` blob: all non-key fields of a
stored forecast row. -/
structure Details where
  temperature : ℚ
  humidity : ℚ
  pressure : ℚ
  wind_speed : ℚ
  wind_gust : ℚ
  wind_direction : ℚ
  weather_code : ℚ
  rain_probability : ℚ
  tmin : ℚ
  tmax : ℚ
deriving DecidableEq

/-- The storage-side normalizer, `api.routes.ts` lines 88-102: the record
serialized into the `details` blob before the `INSERT OR REPLACE`. -/
def detailsOf (f : RawDay) : Details :=
  let temperature := jsOr f.temp2m (jsOr (jsAvg f.tmin f.tmax) 0)
  let rainProbability := jsOr f.probarain (jsOr f.probrain 0)
  { temperature := temperature
    humidity := jsOr f.rh2m (jsOr f.humidity 0)
    pressure := jsOr f.pmer (jsOr f.pressure 0)
    wind_speed := jsOr f.wind10m (jsOr f.wind_speed 0)
    wind_gust := jsOr f.gust10m (jsOr f.wind_gust 0)
    wind_direction := jsOr f.dirwind10m (jsOr f.wind_direction 0)
    weather_code := jsOr f.weather (jsOr f.weather_code 0)
    rain_probability := rainProbability
    tmin := jsOr f.tmin temperature
    tmax := jsOr f.tmax temperature }

/-- A row of the `forecast` table: `(insee, date, details)` with composite
primary key `(insee, date)` (`InitDb.createTables`). -/
structure StoredRow where
  insee : String
  date : ℕ
  details : Details
deriving DecidableEq

/-- The composite primary key of a stored forecast row. -/
def rowKey (r : StoredRow) : String × ℕ := (r.insee, r.date)

/-- Cache-hit reconstruction, `allForecasts.map(f => ({date: f.date,
...JSON.parse(f.details)}))`: the decoded blob merged with the stored date. -/
def rowToForecast (r : StoredRow) : DailyForecast :=
  { date := r.date
    temperature := r.details.temperature
    humidity := r.details.humidity
    pressure := r.details.pressure
    wind_speed := r.details.wind_speed
    wind_gust := r.details.wind_gust
    wind_direction := r.details.wind_direction
    weather_code := r.details.weather_code
    rain_probability := r.details.rain_probability
    tmin := r.details.tmin
    tmax := r.details.tmax }

/-- The derived statistics of the response (`WeatherStatsSchema`). -/
structure Statistics where
  rain_sum : ℚ
  avg_temperature : ℚ
  day_count : ℕ
deriving DecidableEq

/-- `forecastData.filter(d => d.temperature != null && d.temperature > 0)`;
in a normalized record `temperature` is never null. -/
def validTemperatures (w : List DailyForecast) : List DailyForecast :=
  w.filter fun d => decide (0 < d.temperature)

/-- The aggregator, `api.routes.ts` lines 131-135: rain sum over all
entries (`day.rain_probability || 0`), average temperature over the
positive-temperature entries with an explicit empty-case guard, day count. -/
def summarize (w : List DailyForecast) : Statistics :=
  let valid := validTemperatures w
  let rainSum := w.foldl (fun s d => s + jsOr (some d.rain_probability) 0) 0
  let temperatureSum := valid.foldl (fun s d => s + d.temperature) 0
  { rain_sum := rainSum
    avg_temperature := if 0 < valid.length then temperatureSum / (valid.length : ℚ) else 0
    day_count := w.length }

/-- The freshness check, `api.routes.ts` lines 56-59: `SELECT * FROM
forecast WHERE insee = ? AND date >= ?` is truthy iff some row matches. -/
def isFresh (db : List StoredRow) (insee : String) (today : ℕ) : Bool :=
  db.any fun r => r.insee == insee && decide (today ≤ r.date)

/-- Row ordering by date, the `ORDER BY date` of the cache-hit query. -/
def dateLE (a b : StoredRow) : Prop := a.date ≤ b.date

instance : DecidableRel dateLE := fun a b => Nat.decLe a.date b.date

instance : IsTotal StoredRow dateLE := ⟨fun a b => Nat.le_total a.date b.date⟩

instance : IsTrans StoredRow dateLE := ⟨fun _ _ _ h h' => Nat.le_trans h h'⟩

/-- The cache-hit query, `api.routes.ts` lines 65-68: `SELECT * FROM
forecast WHERE insee = ? AND date >= ? ORDER BY date LIMIT 4`. -/
def rowsFor (db : List StoredRow) (insee : String) (today : ℕ) : List StoredRow :=
  ((db.filter fun r => r.insee == insee && decide (today ≤ r.date)).insertionSort dateLE).take 4

/-- `INSERT OR REPLACE INTO forecast (insee, date, details)`: any row with
the same `(insee, date)` primary key is replaced, then the row is stored. -/
def upsert (db : List StoredRow) (row : StoredRow) : List StoredRow :=
  (db.filter fun r => !(r.insee == row.insee && r.date == row.date)) ++ [row]

/-- The persistence loop, `api.routes.ts` lines 83-108: one upsert per raw
entry, keyed by the extracted date, storing the serialized details. -/
def persistWindow (db : List StoredRow) (insee : String) (raws : List RawDay) : List StoredRow :=
  raws.foldl (fun d f => upsert d { insee := insee, date := dateOf f, details := detailsOf f }) db

/-- Number of stored rows carrying a given `(insee, date)` key. -/
def countKey (db : List StoredRow) (insee : String) (date : ℕ) : ℕ :=
  db.countP fun r => r.insee == insee && r.date == date

/-- A city-registry record (`city` table row as returned to the caller). -/
structure City where
  insee : String
  name : String
  zipcode : String
  population : ℕ
deriving DecidableEq

/-- The INSEE format guard `/^\d{5,6}$/` of `api.routes.ts` line 44. -/
def validInsee (s : String) : Bool :=
  (decide (5 ≤ s.length) && decide (s.length ≤ 6)) && s.data.all Char.isDigit

/-- The typed failures of the handler: 400 (bad INSEE format) and 404
(city not found). -/
inductive WeatherError where
  | invalidInsee
  | cityNotFound
deriving DecidableEq

/-- Effect accounting for one request: whether the upstream provider was
called, and how many forecast-table reads and writes were issued. -/
structure Effects where
  providerCalled : Bool
  forecastReads : ℕ
  forecastWrites : ℕ
deriving DecidableEq

/-- The weather response body: city info, forecast window, statistics. -/
structure WeatherResponse where
  city : City
  forecast : List DailyForecast
  statistics : Statistics
deriving DecidableEq

/-- The request environment: the city registry, the forecast store, and the
window the upstream provider would return if called. -/
structure Env where
  cities : List City
  forecasts : List StoredRow
  provider : List RawDay

/-- The `GET /weather/:insee` orchestration, `api.routes.ts` lines 39-151:
format guard, city lookup, freshness check, then either cache-hit
reconstruction or provider fetch + persist + normalize, then statistics.
Returns the response, the forecast store after the request, and the
effect account. -/
def getWeather (env : Env) (insee : String) (today : ℕ) :
    Except WeatherError WeatherResponse × List StoredRow × Effects :=
  if validInsee insee then
    match env.cities.find? (fun c => c.insee == insee) with
    | none => (Except.error WeatherError.cityNotFound, env.forecasts, ⟨false, 0, 0⟩)
    | some city =>
      if isFresh env.forecasts insee today then
        let forecastData := (rowsFor env.forecasts insee today).map rowToForecast
        (Except.ok ⟨city, forecastData, summarize forecastData⟩, env.forecasts, ⟨false, 2, 0⟩)
      else
        let forecasts := env.provider.take 4
        let db := persistWindow env.forecasts insee forecasts
        let forecastData := forecasts.map normalize
        (Except.ok ⟨city, forecastData, summarize forecastData⟩, db, ⟨true, 1, forecasts.length⟩)
  else
    (Except.error WeatherError.invalidInsee, env.forecasts, ⟨false, 0, 0⟩)

/-- The statistics of a successful response, for concrete evaluation. -/
def statisticsOf : Except WeatherError WeatherResponse → Option Statistics
  | Except.ok r => some r.statistics
  | Except.error _ => none

/-- A possibly-absent number is falsy in JavaScript when it is absent or `0`. -/
def falsy (o : Option ℚ) : Prop := o = none ∨ o = some 0

/-- Spec language for a two-step truthy fallback chain ending in `0`: the
output is the primary value when that is present and nonzero, else the
alternate value when that is present and nonzero, else `0`. -/
def chainsTo (prim alt : Option ℚ) (out : ℚ) : Prop :=
  (∃ v, prim = some v ∧ v ≠ 0 ∧ out = v) ∨
  (falsy prim ∧ ∃ v, alt = some v ∧ v ≠ 0 ∧ out = v) ∨
  (falsy prim ∧ falsy alt ∧ out = 0)

/-- Spec language for a one-step truthy fallback chain ending in a computed
default (the `tmin`/`tmax` fallback to the computed temperature). -/
def tailChain (prim : Option ℚ) (dflt out : ℚ) : Prop :=
  (∃ v, prim = some v ∧ v ≠ 0 ∧ out = v) ∨ (falsy prim ∧ out = dflt)

/-- Spec language for well-formedness of one normalized field: it is `0`,
the primary provider value, or the alternate provider value. -/
def fromChain (out : ℚ) (prim alt : Option ℚ) : Prop :=
  out = 0 ∨ prim = some out ∨ alt = some out

/-- The first registered city of `InitDb.insertInitialData`. -/
def parisCity : City := ⟨"75101", "Paris 1er Arrondissement", "75001", 16888⟩

/-- A raw daily-endpoint record of end-to-end scenario A: `tmin=2`,
`tmax=10`, no `temp2m`, the given rain probability. -/
def rawA (d : ℕ) (prob : ℚ) : RawDay :=
  { datetime := ⟨d, 0⟩, tmin := some 2, tmax := some 10, probarain := some prob }

/-- Scenario A environment: `"75101"` registered, no stored rows, provider
returning four daily records with `probarain = 10, 20, 30, 40`. -/
def envA : Env :=
  { cities := [parisCity], forecasts := [], provider := [rawA 1 10, rawA 2 20, rawA 3 30, rawA 4 40] }

/-- A raw record whose `temp2m` is present but `0`: presence-based and
truthiness-based fallback disagree on it. -/
def cexC1 : RawDay := { datetime := ⟨0, 0⟩, temp2m := some 0, tmin := some 2, tmax := some 10 }

/-- A normalized day with positive temperature, for concrete instantiation. -/
def dayW2 : DailyForecast := ⟨1, 5, 0, 0, 0, 0, 0, 0, 20, 5, 5⟩

/-- A stored details blob with all-zero fields. -/
def detailsW : Details := ⟨0, 0, 0, 0, 0, 0, 0, 0, 0, 0⟩

/-- A stored forecast row for `"75101"` dated day 3. -/
def rowW : StoredRow := ⟨"75101", 3, detailsW⟩

/-- Environment with one stored row for `"75101"` and an idle provider. -/
def envFresh : Env := { cities := [parisCity], forecasts := [rowW], provider := [] }

/-- The response the cache-hit path produces from `envFresh` on day 2. -/
def respFresh : WeatherResponse :=
  ⟨parisCity, [rowToForecast rowW], summarize [rowToForecast rowW]⟩

/-- A raw record used to exercise the double-upsert theorem. -/
def rawW6 : RawDay := { datetime := ⟨7, 30⟩, tmin := some 1, tmax := some 3 }

/-! ## Helper lemmas -/

theorem jsOr_some_self (x : ℚ) : jsOr (some x) 0 = x := by
  by_cases h : x = 0 <;> simp [jsOr, h]

theorem chainsTo_jsOr (a b : Option ℚ) : chainsTo a b (jsOr a (jsOr b 0)) := by
  rcases a with _ | u
  · rcases b with _ | v
    · exact Or.inr (Or.inr ⟨Or.inl rfl, Or.inl rfl, rfl⟩)
    · by_cases h : v = 0
      · exact Or.inr (Or.inr ⟨Or.inl rfl, Or.inr (by rw [h]), by simp [jsOr, h]⟩)
      · exact Or.inr (Or.inl ⟨Or.inl rfl, v, rfl, h, by simp [jsOr, h]⟩)
  · by_cases h : u = 0
    · subst h
      rcases b with _ | v
      · exact Or.inr (Or.inr ⟨Or.inr rfl, Or.inl rfl, by simp [jsOr]⟩)
      · by_cases hv : v = 0
        · exact Or.inr (Or.inr ⟨Or.inr rfl, Or.inr (by rw [hv]), by simp [jsOr, hv]⟩)
        · exact Or.inr (Or.inl ⟨Or.inr rfl, v, rfl, hv, by simp [jsOr, hv]⟩)
    · exact Or.inl ⟨u, rfl, h, by simp [jsOr, h]⟩

theorem tailChain_jsOr (a : Option ℚ) (d : ℚ) : tailChain a d (jsOr a d) := by
  rcases a with _ | u
  · exact Or.inr ⟨Or.inl rfl, rfl⟩
  · by_cases h : u = 0
    · exact Or.inr ⟨Or.inr (by rw [h]), by simp [jsOr, h]⟩
    · exact Or.inl ⟨u, rfl, h, by simp [jsOr, h]⟩

theorem fromChain_jsOr (a b : Option ℚ) : fromChain (jsOr a (jsOr b 0)) a b := by
  rcases a with _ | u
  · rcases b with _ | v
    · exact Or.inl rfl
    · by_cases h : v = 0
      · exact Or.inl (by simp [jsOr, h])
      · exact Or.inr (Or.inr (by simp [jsOr, h]))
  · by_cases h : u = 0
    · rcases b with _ | v
      · exact Or.inl (by simp [jsOr, h])
      · by_cases hv : v = 0
        · exact Or.inl (by simp [jsOr, h, hv])
        · exact Or.inr (Or.inr (by simp [jsOr, h, hv]))
    · exact Or.inr (Or.inl (by simp [jsOr, h]))

theorem jsOr_eq_default_or_value (a : Option ℚ) (d : ℚ) :
    jsOr a d = d ∨ a = some (jsOr a d) := by
  rcases a with _ | u
  · exact Or.inl rfl
  · by_cases h : u = 0
    · exact Or.inl (by simp [jsOr, h])
    · exact Or.inr (by simp [jsOr, h])

theorem foldl_add_eq {α : Type} (f : α → ℚ) :
    ∀ (l : List α) (a : ℚ), l.foldl (fun s d => s + f d) a = a + (l.map f).sum := by
  intro l
  induction l with
  | nil => intro a; simp
  | cons x t ih =>
    intro a
    simp only [List.foldl_cons, List.map_cons, List.sum_cons, ih, add_assoc]

/-! ## Claim theorems -/

/-- C1 counterexample: the claim says each output field follows a fallback
chain keyed on field *presence*, in particular that `temperature` is
`temp2m` whenever `temp2m` is present.  In `cexC1` the provider supplies
`temp2m = 0` (present), yet `normalize` returns the `tmin`/`tmax` average
`6`, because the code's `||` chain skips falsy (zero) values. -/
theorem C1_presence_counterexample :
    cexC1.temp2m = some 0 ∧ (normalize cexC1).temperature = 6 ∧ (6 : ℚ) ≠ 0 := by
  refine ⟨rfl, ?_, by norm_num⟩
  show jsOr (some 0) (jsOr (jsAvg (some 2) (some 10)) 0) = 6
  norm_num [jsOr, jsAvg]

/-- C1 (amended): `normalize` computes each output field by a fixed
per-field fallback chain based on truthiness, not bare presence: a field
that is absent or `0` (and an average with a missing operand) is skipped.
`temperature` is `temp2m` if present and nonzero, else the average of
`tmin` and `tmax` if both are present and the average is nonzero, else
`0`; `rainProbability` is `probarain` if present and nonzero, else
`probrain` if present and nonzero, else `0`; `tmin`/`tmax` are the
provider value if present and nonzero, else the computed temperature;
humidity, pressure, wind speed, wind gust, wind direction and weather
code follow the analogous primary/alternate/0 truthy chains. -/
theorem C1_normalize_truthy_chains (f : RawDay) :
    chainsTo f.temp2m (jsAvg f.tmin f.tmax) (normalize f).temperature ∧
    chainsTo f.probarain f.probrain (normalize f).rain_probability ∧
    chainsTo f.rh2m f.humidity (normalize f).humidity ∧
    chainsTo f.pmer f.pressure (normalize f).pressure ∧
    chainsTo f.wind10m f.wind_speed (normalize f).wind_speed ∧
    chainsTo f.gust10m f.wind_gust (normalize f).wind_gust ∧
    chainsTo f.dirwind10m f.wind_direction (normalize f).wind_direction ∧
    chainsTo f.weather f.weather_code (normalize f).weather_code ∧
    tailChain f.tmin (normalize f).temperature (normalize f).tmin ∧
    tailChain f.tmax (normalize f).temperature (normalize f).tmax :=
  ⟨chainsTo_jsOr _ _, chainsTo_jsOr _ _, chainsTo_jsOr _ _, chainsTo_jsOr _ _,
   chainsTo_jsOr _ _, chainsTo_jsOr _ _, chainsTo_jsOr _ _, chainsTo_jsOr _ _,
   tailChain_jsOr _ _, tailChain_jsOr _ _⟩

/-- C2: `summarize` returns `dayCount` equal to the window length,
`rainSum` equal to the arithmetic sum of `rainProbability` over all
entries, and `avgTemperature` equal to the mean of `temperature` over the
entries with positive temperature, returning exactly `0` when no entry
qualifies; over the empty window both `rainSum` and `dayCount` are `0`. -/
theorem C2_summarize_spec (w : List DailyForecast) :
    (summarize w).day_count = w.length ∧
    (summarize w).rain_sum = (w.map (fun d => d.rain_probability)).sum ∧
    (validTemperatures w = [] → (summarize w).avg_temperature = 0) ∧
    (validTemperatures w ≠ [] →
      (summarize w).avg_temperature =
        ((validTemperatures w).map (fun d => d.temperature)).sum /
          ((validTemperatures w).length : ℚ)) ∧
    (summarize ([] : List DailyForecast)).rain_sum = 0 ∧
    (summarize ([] : List DailyForecast)).day_count = 0 := by
  refine ⟨rfl, ?_, ?_, ?_, rfl, rfl⟩
  · show w.foldl (fun s d => s + jsOr (some d.rain_probability) 0) 0 = _
    rw [foldl_add_eq (fun d => jsOr (some d.rain_probability) 0) w 0, zero_add]
    congr 1
    exact List.map_congr_left fun d _ => jsOr_some_self d.rain_probability
  · intro h
    show (if 0 < (validTemperatures w).length then _ else 0) = 0
    rw [h]
    simp
  · intro h
    show (if 0 < (validTemperatures w).length then
        (validTemperatures w).foldl (fun s d => s + d.temperature) 0 /
          ((validTemperatures w).length : ℚ) else 0) = _
    rw [if_pos (List.length_pos.mpr h)]
    congr 1
    rw [foldl_add_eq (fun d => d.temperature) (validTemperatures w) 0, zero_add]

/-- C2 witness: on the one-entry window `[dayW2]` (temperature `5`), the
average temperature is the sum over the qualifying entries divided by
their number. -/
theorem C2_summarize_spec_witness :
    (summarize [dayW2]).avg_temperature =
      ((validTemperatures [dayW2]).map (fun d => d.temperature)).sum /
        ((validTemperatures [dayW2]).length : ℚ) :=
  (C2_summarize_spec [dayW2]).2.2.2.1 (by norm_num [validTemperatures, dayW2])

/-- C8: `normalize` is total and every numeric field of its output is
populated: each output field is `0`, the primary provider value, or the
alternate provider value of its chain (for `temperature` the alternate is
the `tmin`/`tmax` average; `tmin`/`tmax` fall back to the computed
temperature). -/
theorem C8_normalize_total (f : RawDay) :
    fromChain (normalize f).temperature f.temp2m (jsAvg f.tmin f.tmax) ∧
    fromChain (normalize f).rain_probability f.probarain f.probrain ∧
    fromChain (normalize f).humidity f.rh2m f.humidity ∧
    fromChain (normalize f).pressure f.pmer f.pressure ∧
    fromChain (normalize f).wind_speed f.wind10m f.wind_speed ∧
    fromChain (normalize f).wind_gust f.gust10m f.wind_gust ∧
    fromChain (normalize f).wind_direction f.dirwind10m f.wind_direction ∧
    fromChain (normalize f).weather_code f.weather f.weather_code ∧
    ((normalize f).tmin = (normalize f).temperature ∨ f.tmin = some (normalize f).tmin) ∧
    ((normalize f).tmax = (normalize f).temperature ∨ f.tmax = some (normalize f).tmax) :=
  ⟨fromChain_jsOr _ _, fromChain_jsOr _ _, fromChain_jsOr _ _, fromChain_jsOr _ _,
   fromChain_jsOr _ _, fromChain_jsOr _ _, fromChain_jsOr _ _, fromChain_jsOr _ _,
   jsOr_eq_default_or_value _ _, jsOr_eq_default_or_value _ _⟩

/-- C10: the forecast entry built for the cache-miss response and the
entry a later cache hit reconstructs from persistence agree: decoding the
stored details blob and merging the stored date (`rowToForecast` applied
to the row the persistence loop writes for `f`) yields exactly the record
the response mapper (`normalize`) produces for `f`. -/
theorem C10_miss_hit_agreement (insee : String) (f : RawDay) :
    rowToForecast ⟨insee, dateOf f, detailsOf f⟩ = normalize f := rfl

/-- C3: `isFresh` returns true exactly when at least one stored row for
the location with `date >= today` exists — no cardinality condition, so a
single such row suffices — and whenever it is true the orchestration makes
no upstream provider call (no top-up fetch). -/
theorem C3_isFresh_spec (db : List StoredRow) (insee : String) (today : ℕ) :
    (isFresh db insee today = true ↔ ∃ r ∈ db, r.insee = insee ∧ today ≤ r.date) ∧
    (∀ env : Env, env.forecasts = db → isFresh db insee today = true →
      (getWeather env insee today).2.2.providerCalled = false) := by
  constructor
  · simp [isFresh, List.any_eq_true, Bool.and_eq_true, beq_iff_eq, decide_eq_true_iff]
  · intro env hdb hf
    unfold getWeather
    by_cases hv : validInsee insee
    · cases hfind : env.cities.find? (fun c => c.insee == insee) with
      | none => simp [hv, hfind]
      | some city => simp [hv, hfind, hdb, hf]
    · simp [hv]

/-- C3 witness: in `envFresh` (single stored row for `"75101"` dated 3) on
day 2, the orchestration does not call the provider. -/
theorem C3_isFresh_spec_witness :
    (getWeather envFresh "75101" 2).2.2.providerCalled = false :=
  (C3_isFresh_spec [rowW] "75101" 2).2 envFresh rfl (by decide)

/-- C4: when the location passes the format guard but is unknown to the
city registry, the orchestration fails with the not-found error, the
forecast store is unchanged, the provider is not called, and no forecast
read or write is issued. -/
theorem C4_unknown_location (env : Env) (insee : String) (today : ℕ)
    (hv : validInsee insee = true)
    (hc : env.cities.find? (fun c => c.insee == insee) = none) :
    getWeather env insee today =
      (Except.error WeatherError.cityNotFound, env.forecasts, ⟨false, 0, 0⟩) := by
  unfold getWeather
  simp [hv, hc]

/-- C4 witness: the unknown location `"00000"` against the registry
holding only `"75101"` fails with not-found and touches nothing. -/
theorem C4_unknown_location_witness :
    getWeather envFresh "00000" 2 =
      (Except.error WeatherError.cityNotFound, envFresh.forecasts, ⟨false, 0, 0⟩) :=
  C4_unknown_location envFresh "00000" 2 (by decide) (by decide)

/-- C5: on a fresh (cache-hit) location the orchestration calls no
provider, leaves the store unchanged, and returns as the window the
stored rows for the location dated `>= today`, sorted by date ascending
and limited to 4, each reconstructed by decoding its details blob and
merging its stored date (`rowToForecast`), with no re-normalization. -/
theorem C5_cache_hit (env : Env) (insee : String) (today : ℕ) (city : City)
    (hv : validInsee insee = true)
    (hc : env.cities.find? (fun c => c.insee == insee) = some city)
    (hf : isFresh env.forecasts insee today = true) :
    getWeather env insee today =
      (Except.ok ⟨city, (rowsFor env.forecasts insee today).map rowToForecast,
        summarize ((rowsFor env.forecasts insee today).map rowToForecast)⟩,
       env.forecasts, ⟨false, 2, 0⟩) := by
  unfold getWeather
  simp [hv, hc, hf]

/-- C5 witness: `envFresh` has a stored row for `"75101"` dated 3; on day
2 the orchestration serves the reconstructed stored window. -/
theorem C5_cache_hit_witness :
    getWeather envFresh "75101" 2 =
      (Except.ok ⟨parisCity, (rowsFor envFresh.forecasts "75101" 2).map rowToForecast,
        summarize ((rowsFor envFresh.forecasts "75101" 2).map rowToForecast)⟩,
       envFresh.forecasts, ⟨false, 2, 0⟩) :=
  C5_cache_hit envFresh "75101" 2 parisCity (by decide) (by decide) (by decide)

/-- C7: end-to-end scenario A — `"75101"` with no stored rows, provider
returning four daily records with `tmin=2`, `tmax=10`, no `temp2m` and
`probarain = 10, 20, 30, 40` — yields `rainSum = 100`,
`avgTemperature = 6`, `dayCount = 4`. -/
theorem C7_scenario_A :
    statisticsOf (getWeather envA "75101" 1).1 = some ⟨100, 6, 4⟩ := by
  simp +decide [getWeather, envA, parisCity, rawA, validInsee, isFresh, rowsFor, persistWindow,
    upsert, normalize, detailsOf, summarize, validTemperatures, jsOr, jsAvg, dateOf, statisticsOf,
    List.find?]
  norm_num

theorem countP_filter_of_imp (p q : StoredRow → Bool) (h : ∀ r, p r = true → q r = true) :
    ∀ db : List StoredRow, (db.filter q).countP p = db.countP p := by
  intro db
  induction db with
  | nil => rfl
  | cons r t ih =>
    by_cases hq : q r = true
    · rw [List.filter_cons_of_pos hq, List.countP_cons, List.countP_cons, ih]
    · have hp : p r = false := by
        cases hpr : p r
        · rfl
        · exact absurd (h r hpr) hq
      rw [List.filter_cons_of_neg hq, List.countP_cons, ih, hp]
      simp

theorem countKey_upsert_self (db : List StoredRow) (row : StoredRow) :
    countKey (upsert db row) row.insee row.date = 1 := by
  unfold countKey upsert
  rw [List.countP_append]
  have h1 : (db.filter fun r => !(r.insee == row.insee && r.date == row.date)).countP
      (fun r => r.insee == row.insee && r.date == row.date) = 0 := by
    rw [List.countP_eq_zero]
    intro r hr
    have hq := (List.mem_filter.mp hr).2
    rw [Bool.not_eq_true'] at hq
    simp [hq]
  rw [h1]
  simp

theorem countKey_upsert_other (db : List StoredRow) (row : StoredRow) (i : String) (d : ℕ)
    (h : ¬(row.insee = i ∧ row.date = d)) :
    countKey (upsert db row) i d = countKey db i d := by
  unfold countKey upsert
  rw [List.countP_append]
  have h2 : List.countP (fun r => r.insee == i && r.date == d) [row] = 0 := by
    have : (row.insee == i && row.date == d) = false := by
      cases hb : (row.insee == i && row.date == d)
      · rfl
      · rw [Bool.and_eq_true, beq_iff_eq, beq_iff_eq] at hb
        exact absurd hb h
    simp [List.countP_cons, this]
  rw [h2, Nat.add_zero]
  apply countP_filter_of_imp
  intro r hr
  rw [Bool.and_eq_true, beq_iff_eq, beq_iff_eq] at hr
  cases hb : (r.insee == row.insee && r.date == row.date)
  · rfl
  · rw [Bool.and_eq_true, beq_iff_eq, beq_iff_eq] at hb
    exact absurd ⟨by rw [← hb.1, hr.1], by rw [← hb.2, hr.2]⟩ h

theorem countKey_persistWindow_other (i : String) (d : ℕ) (insee : String) :
    ∀ (raws : List RawDay) (db : List StoredRow),
      (∀ g ∈ raws, ¬(insee = i ∧ dateOf g = d)) →
      countKey (persistWindow db insee raws) i d = countKey db i d := by
  intro raws
  induction raws with
  | nil => intro db _; rfl
  | cons g t ih =>
    intro db hall
    have hstep : persistWindow db insee (g :: t) =
        persistWindow (upsert db ⟨insee, dateOf g, detailsOf g⟩) insee t := rfl
    rw [hstep, ih _ (fun g' hg' => hall g' (List.mem_cons_of_mem _ hg'))]
    exact countKey_upsert_other db _ i d (hall g (List.mem_cons_self _ _))

theorem countKey_persistWindow_mem (insee : String) :
    ∀ (raws : List RawDay) (db : List StoredRow) (f : RawDay), f ∈ raws →
      countKey (persistWindow db insee raws) insee (dateOf f) = 1 := by
  intro raws
  induction raws with
  | nil => intro db f hf; cases hf
  | cons g t ih =>
    intro db f hf
    have hstep : persistWindow db insee (g :: t) =
        persistWindow (upsert db ⟨insee, dateOf g, detailsOf g⟩) insee t := rfl
    rw [hstep]
    by_cases hex : ∃ f' ∈ t, dateOf f' = dateOf f
    · obtain ⟨f', hf', hd⟩ := hex
      rw [← hd]
      exact ih _ f' hf'
    · have hdg : dateOf f = dateOf g := by
        rcases List.mem_cons.mp hf with h | h
        · rw [h]
        · exact absurd ⟨f, h, rfl⟩ hex
      rw [countKey_persistWindow_other insee (dateOf f) insee t _
        (fun g' hg' hc => hex ⟨g', hg', hc.2⟩), hdg]
      exact countKey_upsert_self db ⟨insee, dateOf g, detailsOf g⟩

/-- C6: persisting the same window twice for the same location leaves, for
each `(location, date)` key appearing in the window, exactly one stored
row carrying that key — the write is an idempotent upsert that replaces
rather than appends. -/
theorem C6_upsert_idempotent (db : List StoredRow) (insee : String) (raws : List RawDay)
    (f : RawDay) (hf : f ∈ raws) :
    countKey (persistWindow (persistWindow db insee raws) insee raws) insee (dateOf f) = 1 :=
  countKey_persistWindow_mem insee raws (persistWindow db insee raws) f hf

/-- C6 witness: persisting the one-entry window `[rawW6]` twice into the
empty store leaves exactly one row keyed `("75101", day 7)`. -/
theorem C6_upsert_idempotent_witness :
    countKey (persistWindow (persistWindow [] "75101" [rawW6]) "75101" [rawW6])
      "75101" (dateOf rawW6) = 1 :=
  C6_upsert_idempotent [] "75101" [rawW6] rawW6 (List.mem_singleton.mpr rfl)

theorem rowsFor_dates_sorted (db : List StoredRow) (insee : String) (today : ℕ) :
    ((rowsFor db insee today).map (fun r => r.date)).Sorted (· ≤ ·) := by
  have h1 : ((db.filter fun r =>
      r.insee == insee && decide (today ≤ r.date)).insertionSort dateLE).Sorted dateLE :=
    List.sorted_insertionSort dateLE _
  have h2 : (rowsFor db insee today).Sorted dateLE :=
    h1.sublist (List.take_sublist _ _)
  rw [List.Sorted, List.pairwise_map]
  exact h2

theorem map_date_nodup_of_key_nodup :
    ∀ (l : List StoredRow) (i : String), (∀ r ∈ l, r.insee = i) →
      (l.map rowKey).Nodup → (l.map fun r => r.date).Nodup := by
  intro l i
  induction l with
  | nil => intro _ _; simp
  | cons r t ih =>
    intro hins hkey
    rw [List.map_cons, List.nodup_cons] at hkey ⊢
    refine ⟨?_, ih (fun s hs => hins s (List.mem_cons_of_mem _ hs)) hkey.2⟩
    intro hmem
    obtain ⟨s, hs, hsd⟩ := List.mem_map.mp hmem
    apply hkey.1
    rw [List.mem_map]
    refine ⟨s, hs, ?_⟩
    unfold rowKey
    rw [hsd, hins s (List.mem_cons_of_mem _ hs), hins r (List.mem_cons_self _ _)]

theorem rowsFor_dates_nodup (db : List StoredRow) (insee : String) (today : ℕ)
    (h : (db.map rowKey).Nodup) :
    ((rowsFor db insee today).map (fun r => r.date)).Nodup := by
  unfold rowsFor
  set fl := db.filter fun r => r.insee == insee && decide (today ≤ r.date) with hfl
  have hsub : fl.Sublist db := List.filter_sublist db
  have hkey : (fl.map rowKey).Nodup := (hsub.map rowKey).nodup h
  have hins : ∀ r ∈ fl, r.insee = insee := by
    intro r hr
    have hq := (List.mem_filter.mp hr).2
    rw [Bool.and_eq_true, beq_iff_eq] at hq
    exact hq.1
  have hdates : (fl.map fun r => r.date).Nodup :=
    map_date_nodup_of_key_nodup fl insee hins hkey
  have hperm : (fl.insertionSort dateLE).Perm fl := List.perm_insertionSort dateLE fl
  have hdates2 : ((fl.insertionSort dateLE).map fun r => r.date).Nodup :=
    ((hperm.map fun r => r.date).nodup_iff).mpr hdates
  have hsub2 : (((fl.insertionSort dateLE).take 4).map (fun r => r.date)).Sublist
      ((fl.insertionSort dateLE).map (fun r => r.date)) :=
    (List.take_sublist 4 (fl.insertionSort dateLE)).map _
  exact hsub2.nodup hdates2

/-- C9: every window a successful orchestration returns — cache hit given
the store's composite-key uniqueness, cache miss given a chronological
(strictly date-increasing) provider payload — has dates that are sorted in
non-decreasing order and pairwise distinct. -/
theorem C9_window_dates (env : Env) (insee : String) (today : ℕ) (resp : WeatherResponse)
    (hdb : (env.forecasts.map rowKey).Nodup)
    (hprov : (env.provider.map dateOf).Pairwise (· < ·))
    (hres : (getWeather env insee today).1 = Except.ok resp) :
    (resp.forecast.map (fun d => d.date)).Sorted (· ≤ ·) ∧
    (resp.forecast.map (fun d => d.date)).Nodup := by
  unfold getWeather at hres
  by_cases hv : validInsee insee
  · cases hfind : env.cities.find? (fun c => c.insee == insee) with
    | none => rw [hfind] at hres; simp [hv] at hres
    | some city =>
      rw [hfind] at hres
      by_cases hf : isFresh env.forecasts insee today
      · simp [hv, hf] at hres
        subst hres
        dsimp only
        constructor
        · rw [List.map_map]
          exact rowsFor_dates_sorted env.forecasts insee today
        · rw [List.map_map]
          exact rowsFor_dates_nodup env.forecasts insee today hdb
      · simp [hv, hf] at hres
        subst hres
        dsimp only
        have heq : (List.take 4 (List.map normalize env.provider)).map (fun d => d.date) =
            (env.provider.map dateOf).take 4 := by
          rw [List.map_take, List.map_map]
          rfl
        have hdates : ((env.provider.map dateOf).take 4).Pairwise (· < ·) :=
          hprov.sublist (List.take_sublist 4 _)
        constructor
        · rw [heq]
          exact hdates.imp le_of_lt
        · rw [heq]
          exact hdates.imp ne_of_lt
  · simp [hv] at hres

/-- C9 witness: the cache-hit response from `envFresh` on day 2 has
sorted, duplicate-free window dates. -/
theorem C9_window_dates_witness :
    (respFresh.forecast.map (fun d => d.date)).Sorted (· ≤ ·) ∧
    (respFresh.forecast.map (fun d => d.date)).Nodup :=
  C9_window_dates envFresh "75101" 2 respFresh (by decide) (by decide) rfl

end Weather
